import Mathlib

/-!
Verification development for the AEnvironment instance controller and
admission gateway (Go sources under `controller/`, `api-service/` and the
service/helper files of the same repository).

The Go code is shallowly embedded: Go structs become Lean structures, Go
maps become association lists with Go's map-read/write semantics (a read of
a missing key yields the zero value, a write replaces the entry or appends
it), `map[string]interface{}` values become the inductive `DynVal`, and Go
panics (failed type assertions, explicit `panic(...)` calls) are modelled
as `none` / a dedicated `crashed` result.  Machine integers are modelled as
`Int`; Kubernetes `resource.Quantity` values are modelled as their value in
milli-units (an `Int`), so that `Quantity.Cmp` becomes integer equality.
`time.ParseDuration` and file/YAML access are standard-library effects and
are passed in as explicit function parameters.
-/

/-- Dynamic value stored in a Go `map[string]interface{}` deploy
configuration after JSON decoding: strings, numbers, null, nested lists and
maps; `strList` represents a Go `[]string` stored directly (as the
api-service does before serialization). -/
inductive DynVal where
  | str (s : String)
  | num (n : Int)
  | null
  | boolean (b : Bool)
  | strList (xs : List String)
  | list (xs : List DynVal)
  | map (kvs : List (String × DynVal))

/-- Association-list read with Go string-map semantics: a missing key reads
as the empty string (the zero value of `string`). -/
def mapGetD : List (String × String) → String → String
  | [], _ => ""
  | (k', v) :: rest, k => if k' = k then v else mapGetD rest k

/-- Association-list write with Go map semantics: replace the entry for the
key if present, otherwise add it. -/
def labelSet : List (String × String) → String → String → List (String × String)
  | [], k, v => [(k, v)]
  | (k', v') :: rest, k, v =>
    if k' = k then (k, v) :: rest else (k', v') :: labelSet rest k v

/-- Association-list read for a Go `map[string]interface{}`: `none` models
a read of a missing key (a nil `interface{}`). -/
def cfgGet : List (String × DynVal) → String → Option DynVal
  | [], _ => none
  | (k', v) :: rest, k => if k' = k then some v else cfgGet rest k

/-- Association-list write for a Go `map[string]interface{}`. -/
def cfgSet : List (String × DynVal) → String → DynVal → List (String × DynVal)
  | [], k, v => [(k, v)]
  | (k', v') :: rest, k, v =>
    if k' = k then (k, v) :: rest else (k', v') :: cfgSet rest k v

/-- Environment variable of a container (`corev1.EnvVar`, the fields the
code uses). -/
structure EnvVar where
  name : String
  value : String
deriving DecidableEq

/-- Resource list (`corev1.ResourceList`), restricted to the three resource
names the code touches.  A quantity is its value in milli-units (millicores
for cpu, milli-bytes for memory and ephemeral storage); `none` models an
absent map entry. -/
structure ResourceList where
  cpu : Option Int := none
  memory : Option Int := none
  ephemeralStorage : Option Int := none
deriving DecidableEq

/-- Container (`corev1.Container`, the fields the code uses).  `requests`
and `limits` flatten `corev1.ResourceRequirements`. -/
structure Container where
  name : String := ""
  image : String := ""
  env : List EnvVar := []
  args : List String := []
  requests : ResourceList := {}
  limits : ResourceList := {}
deriving DecidableEq

/-- Pod (`corev1.Pod`, the fields the code uses).  `creationTimestamp` is
in seconds; `phase` is the status phase string. -/
structure Pod where
  name : String := ""
  ns : String := ""
  labels : List (String × String) := []
  creationTimestamp : Int := 0
  phase : String := ""
  resourceVersion : String := ""
  uid : String := ""
  initContainers : List Container := []
  containers : List Container := []
deriving DecidableEq

/-- Value of `constants.AENV_TTL`, the label key carrying the TTL duration
string (the `constants` package is not part of the sources here; the value
`aenv-ttl` is the one printed by `createPod`'s log line `add aenv-ttl label
with value:...`; only the constant's identity matters to the claims). -/
def AENV_TTL : String := "aenv-ttl"

/-- Membership predicate of `ListExpiredPods`' result, translated from the
loop body of `AEnvPodCache.ListExpiredPods`: skip a pod whose TTL label is
empty (or absent); skip a pod whose TTL label does not parse as a duration
(the code logs a warning and continues); otherwise the pod is appended.
Note that in the source the comparison `now − creationTimestamp > limited`
only guards a log line (`"has expired ..., deleting..."`); the append that
follows it is unconditional. -/
def expiredScanKeeps (parseDur : String → Option Int) (now : Int) (pod : Pod) : Bool :=
  let ttlValue := mapGetD pod.labels AENV_TTL
  if ttlValue = "" then
    false
  else
    match parseDur ttlValue with
    | none => false
    | some limited =>
      let _logged := decide (now - pod.creationTimestamp > limited)
      true

/-- Translation of `AEnvPodCache.ListExpiredPods`.  The cache index
(`cache.ByIndex` over one namespace) is given as the pod list `pods`;
`parseDur` stands for `time.ParseDuration` (returning the duration in
seconds), `now` for `time.Now()`. -/
def ListExpiredPods (parseDur : String → Option Int) (now : Int) (pods : List Pod) : List Pod :=
  pods.filter (expiredScanKeeps parseDur now)

/-- Artifact of an environment definition (`model.Artifact`, the fields the
code uses). -/
structure Artifact where
  type' : String
  content : String

/-- Environment definition (`model.AEnvHubEnv`, the fields the merge path
uses). -/
structure AEnvHubEnv where
  name : String := ""
  artifacts : List Artifact := []
  deployConfig : List (String × DynVal) := []

/-- Helper digit accumulator used by `parseQuantity`. -/
def digitsToNatAux : List Char → Nat → Option Nat
  | [], acc => some acc
  | c :: cs, acc =>
    if c.isDigit then digitsToNatAux cs (acc * 10 + (c.toNat - 48)) else none

/-- Multiplier turning a Kubernetes quantity suffix into milli-units
(`resource.ParseQuantity` suffix table: decimal-SI `k/M/G/T` and binary-SI
`Ki/Mi/Gi/Ti`, plus the milli suffix `m` and the bare unit). -/
def suffixMultiplierMilli : String → Option Int
  | "" => some 1000
  | "m" => some 1
  | "k" => some (1000 * 1000)
  | "M" => some (1000000 * 1000)
  | "G" => some (1000000000 * 1000)
  | "T" => some (1000000000000 * 1000)
  | "Ki" => some (1024 * 1000)
  | "Mi" => some (1048576 * 1000)
  | "Gi" => some (1073741824 * 1000)
  | "Ti" => some (1099511627776 * 1000)
  | _ => none

/-- Model of `resource.ParseQuantity` on the fragment the deploy configs
use (a nonnegative integer mantissa followed by one of the suffixes above),
returning the value in milli-units; `none` models a parse error.  The full
Kubernetes grammar also admits signs, decimal points and exponents, none of
which appear in the configurations at issue. -/
def parseQuantity (s : String) : Option Int := do
  let cs := s.toList
  let digits := cs.takeWhile Char.isDigit
  let suffix := cs.dropWhile Char.isDigit
  if digits.isEmpty then
    none
  else do
    let n ← digitsToNatAux digits 0
    let m ← suffixMultiplierMilli (String.mk suffix)
    pure ((n : Int) * m)

/-- Value read for a quantity that may be absent from a resource map: Go
reads the zero quantity (value 0) for a missing entry
(`resources.Requests.Cpu()` and map indexing both do this). -/
def quantityValD (q : Option Int) : Int := q.getD 0

/-- Environment-variable section of `applyConfig`: the
`configs["environmentVariables"].(map[string]interface{})` comma-ok
assertion matches only a map value; each variable value is then asserted to
be a string without comma-ok (`v.(string)`), so a non-string value panics —
modelled as `none`.  Each variable is appended to the container env list
unconditionally (the source does not look for an existing entry of the same
name). -/
def applyEnvSection (configs : List (String × DynVal)) (c : Container) : Option Container :=
  match cfgGet configs "environmentVariables" with
  | some (DynVal.map kvs) =>
    if kvs.length > 0 then
      kvs.foldlM
        (fun (acc : Container) kv =>
          match kv.2 with
          | DynVal.str v => some { acc with env := acc.env ++ [⟨kv.1, v⟩] }
          | _ => none)
        c
    else
      some c
  | _ => some c

/-- Arguments section of `applyConfig`: the `configs["arguments"].([]string)`
comma-ok assertion matches only a `[]string` value; matching arguments are
appended. -/
def applyArgsSection (configs : List (String × DynVal)) (c : Container) : Container :=
  match cfgGet configs "arguments" with
  | some (DynVal.strList xs) =>
    if xs.length > 0 then { c with args := c.args ++ xs } else c
  | _ => c

/-- Go interface comparison `configs["resource"] != "autoscale"` is false
exactly when the entry holds the string `"autoscale"`. -/
def isAutoscale (configs : List (String × DynVal)) : Bool :=
  match cfgGet configs "resource" with
  | some (DynVal.str s) => s = "autoscale"
  | _ => false

/-- Compare-and-set block at the end of `applyConfig`: each of the four
request/limit quantities is overwritten by the expected value whenever its
current value (0 when absent) differs. -/
def setCpuMem (c : Container) (expectCpu expectMemory : Int) : Container :=
  let requests := c.requests
  let requests :=
    if quantityValD requests.cpu ≠ expectCpu then
      { requests with cpu := some expectCpu } else requests
  let requests :=
    if quantityValD requests.memory ≠ expectMemory then
      { requests with memory := some expectMemory } else requests
  let limits := c.limits
  let limits :=
    if quantityValD limits.cpu ≠ expectCpu then
      { limits with cpu := some expectCpu } else limits
  let limits :=
    if quantityValD limits.memory ≠ expectMemory then
      { limits with memory := some expectMemory } else limits
  { c with requests := requests, limits := limits }

/-- Resource section of `applyConfig`: return unchanged unless the
`resource` entry is the string `"autoscale"`; then `configs["cpu"].(string)`
and `configs["memory"].(string)` are asserted without comma-ok (a missing
or non-string entry panics, modelled as `none`); a quantity-parse failure
logs and returns with the container unchanged; otherwise the four
request/limit values are compared and set. -/
def applyResourceSection (configs : List (String × DynVal)) (c : Container) : Option Container :=
  if ¬ isAutoscale configs then
    some c
  else
    match cfgGet configs "cpu" with
    | some (DynVal.str strCpu) =>
      match cfgGet configs "memory" with
      | some (DynVal.str strMemory) =>
        match parseQuantity strCpu with
        | none => some c
        | some expectCpu =>
          match parseQuantity strMemory with
          | none => some c
          | some expectMemory => some (setCpuMem c expectCpu expectMemory)
      | _ => none
    | _ => none

/-- Translation of `applyConfig` (aenv_pod_handler.go): env-var merge, then
argument merge, then the autoscale resource merge.  `none` models a panic
from a failed type assertion inside the function. -/
def applyConfig (configs : List (String × DynVal)) (c : Container) : Option Container := do
  let c1 ← applyEnvSection configs c
  let c2 := applyArgsSection configs c1
  applyResourceSection configs c2

/-- First artifact of type `image`, as scanned at the top of
`MergePodImage`; the image stays empty when there is none. -/
def firstImageArtifact : List Artifact → String
  | [] => ""
  | a :: rest => if a.type' = "image" then a.content else firstImageArtifact rest

/-- Body of `MergePodImage`'s container loop for the container at index
`i`: set the primary image; on index 1 override it with
`deployConfig["secondImageName"].(string)` when that entry is present (the
assertion has no comma-ok, so a non-string entry panics — `none`); then run
`applyConfig`. -/
def mergeOneContainer (aenv : AEnvHubEnv) (image : String) (i : Nat) (c : Container) :
    Option Container := do
  let c := { c with image := image }
  let c ←
    if i = 1 then
      match cfgGet aenv.deployConfig "secondImageName" with
      | some (DynVal.str s) => some { c with image := s }
      | some _ => none
      | none => some c
    else
      some c
  applyConfig aenv.deployConfig c

/-- Indexed traversal of the container list, mirroring the
`for i := range pod.Spec.Containers` loop of `MergePodImage`. -/
def mergeContainersFrom (aenv : AEnvHubEnv) (image : String) :
    Nat → List Container → Option (List Container)
  | _, [] => some []
  | i, c :: rest => do
    let c' ← mergeOneContainer aenv image i c
    let rest' ← mergeContainersFrom aenv image (i + 1) rest
    pure (c' :: rest')

/-- Translation of `MergePodImage` (aenv_pod_handler.go): pick the first
image artifact, stamp it on every init container and container, override
the second container's image with `secondImageName` when configured, and
apply the deploy configuration to every container. -/
def MergePodImage (pod : Pod) (aenv : AEnvHubEnv) : Option Pod := do
  let image := firstImageArtifact aenv.artifacts
  let inits := pod.initContainers.map (fun c => { c with image := image })
  let conts ← mergeContainersFrom aenv image 0 pod.containers
  pure { pod with initContainers := inits, containers := conts }

/-- TTL-label fragment of `createPod` (aenv_pod_handler.go lines 232-241):
when `DeployConfig["ttl"]` is non-nil its value is asserted to be a string
without comma-ok (a non-string, non-nil entry panics — `none`) and stored
under the `AENV_TTL` label key; a nil or absent entry leaves the labels
alone. -/
def setTtlLabel (deployConfig : List (String × DynVal)) (labels : List (String × String)) :
    Option (List (String × String)) :=
  match cfgGet deployConfig "ttl" with
  | none => some labels
  | some DynVal.null => some labels
  | some (DynVal.str ttlValue) => some (labelSet labels AENV_TTL ttlValue)
  | some _ => none

/-- Datasource fragment of the gateway's `CreateEnvInstance`
(env_instance.go lines 83-96): when the datasource is non-empty, read
`deployConfig["imagePrefix"]` (falling back to `docker.io/library/aenv`
when the entry is absent or not a string) and store
`imagePrefix + ":" + datasource` under `secondImageName`. -/
def applyDatasource (deployConfig : List (String × DynVal)) (datasource : String) :
    List (String × DynVal) :=
  if datasource ≠ "" then
    let imagePre :=
      match cfgGet deployConfig "imagePrefix" with
      | some (DynVal.str s) => s
      | _ => "docker.io/library/aenv"
    cfgSet deployConfig "secondImageName" (DynVal.str (imagePre ++ ":" ++ datasource))
  else
    deployConfig

/-- TTL fragment of the gateway's `CreateEnvInstance` (env_instance.go line
104): the request's ttl string is stored unconditionally, so every created
definition carries a `ttl` entry, possibly the empty string. -/
def applyTtlConfig (deployConfig : List (String × DynVal)) (ttl : String) :
    List (String × DynVal) :=
  cfgSet deployConfig "ttl" (DynVal.str ttl)

/-- Merge of one definition-provided environment variable into a container
env list, translated from the inner loop of `MergePod` (part_003): the
first entry with the same name has its value overwritten, otherwise the
variable is appended. -/
def mergeOneEnv : List EnvVar → String → String → List EnvVar
  | [], k, v => [⟨k, v⟩]
  | e :: rest, k, v =>
    if e.name = k then { e with value := v } :: rest else e :: mergeOneEnv rest k v

/-- Merge of all definition-provided environment variables, translated from
`mergeEnvVars` inside `MergePod`; the Go map of variables is given as an
association list. -/
def mergeEnvVars (environs : List (String × String)) (env : List EnvVar) : List EnvVar :=
  environs.foldl (fun acc kv => mergeOneEnv acc kv.1 kv.2) env

/-- Resource update of `MergePod`'s `updateResources` helper: memory (given
in MiB) is applied to requests and limits only within 256–8192 MiB;
ephemeral storage (given in bytes) only within 1–50 GiB. -/
def updateResources (memory : Int) (ephemeralStorage : Int) (c : Container) : Container :=
  let memoryBytes := memory * 1024 * 1024
  let c :=
    if 256 ≤ memory ∧ memory ≤ 8192 then
      { c with
        requests := { c.requests with memory := some (memoryBytes * 1000) },
        limits := { c.limits with memory := some (memoryBytes * 1000) } }
    else c
  if 1 * 1024 * 1024 * 1024 ≤ ephemeralStorage ∧ ephemeralStorage ≤ 50 * 1024 * 1024 * 1024 then
    { c with
      requests := { c.requests with ephemeralStorage := some (ephemeralStorage * 1000) },
      limits := { c.limits with ephemeralStorage := some (ephemeralStorage * 1000) } }
  else c

/-- Translation of `MergePod` (part_003): merge labels, merge environment
variables into init containers and containers, then update resources and
the image on every container.  Nil Go maps are represented by empty
association lists (merging with either is a no-op). -/
def MergePod (pod : Pod) (labels : List (String × String)) (environs : List (String × String))
    (memory : Int) (ephemeralStorage : Int) (image : String) : Pod :=
  let podLabels := labels.foldl (fun acc kv => labelSet acc kv.1 kv.2) pod.labels
  let inits := pod.initContainers.map (fun c => { c with env := mergeEnvVars environs c.env })
  let conts := pod.containers.map (fun c => { c with env := mergeEnvVars environs c.env })
  let inits := inits.map (fun c => { updateResources memory ephemeralStorage c with image := image })
  let conts := conts.map (fun c => { updateResources memory ephemeralStorage c with image := image })
  { pod with labels := podLabels, initContainers := inits, containers := conts }

/-- Instance summary as decoded from the controller's
`/pods?filter=expired` response (`HttpListResponseData` / the
`models.EnvInstance` fields `Cleanup` uses). -/
structure EnvInstance where
  id : String
  status : String
  ttl : String := ""
  createdAt : Int := 0
deriving DecidableEq

/-- Mapping from a cached pod to its list-response entry, translated from
the response loop of `listPod` (aenv_pod_handler.go lines 363-370). -/
def podToListData (pod : Pod) : EnvInstance :=
  { id := pod.name
    status := pod.phase
    ttl := mapGetD pod.labels AENV_TTL
    createdAt := pod.creationTimestamp }

/-- Composition `FilterPods` sees on a successful round trip: the
controller serves `/pods?filter=expired` from `ListExpiredPods` and maps
each pod through the list-response shape. -/
def FilterPodsOf (parseDur : String → Option Int) (now : Int) (pods : List Pod) :
    List EnvInstance :=
  (ListExpiredPods parseDur now pods).map podToListData

/-- Deletion loop of `ScheduleClient.Cleanup` (part_001 lines 246-264),
instrumented with the list of ids passed to `DeletePod`: instances whose
status is `Terminated` are skipped; a deletion error is logged and the loop
continues; successful deletions are counted.  Returns
`(deletedCount, attempted ids)`. -/
def cleanupPassTrace (deletePod : String → Except String Bool) (instances : List EnvInstance) :
    Nat × List String :=
  instances.foldl
    (fun acc inst =>
      if inst.status = "Terminated" then acc
      else
        let attempts := acc.2 ++ [inst.id]
        match deletePod inst.id with
        | Except.error _ => (acc.1, attempts)
        | Except.ok true => (acc.1 + 1, attempts)
        | Except.ok false => (acc.1, attempts))
    (0, [])

/-- Translation of `ScheduleClient.Cleanup` (part_001 lines 234-267): the
only error path is a failed `FilterPods` call; an empty instance list
returns early; otherwise the deletion loop runs to completion and the
deleted count (which the source logs) is returned. -/
def Cleanup (filterPods : Except String (List EnvInstance))
    (deletePod : String → Except String Bool) : Except String Nat :=
  match filterPods with
  | Except.error e => Except.error ("failed to get env instances: " ++ e)
  | Except.ok instances =>
    if instances.length = 0 then Except.ok 0
    else Except.ok (cleanupPassTrace deletePod instances).1

/-- Outcome of template loading: `ok` is a successful return, `crashed`
models an explicit Go `panic(...)`. -/
inductive LoadResult where
  | ok (pod : Pod)
  | crashed (msg : String)
deriving DecidableEq

/-- Base directory of mounted templates (`podTemplateBaseDir`). -/
def podTemplateBaseDir : String := "/etc/aenv/pod-templates"

/-- Legacy hardcoded template path per machine type, translated from the
switch in `loadPodTemplateFromLegacyPath` (the default case keeps the linux
path). -/
def legacyTemplatePath (machineType : String) : String :=
  if machineType = "amd64" ∨ machineType = "singleContainer" then
    "/home/admin/pod_template_linux/config.yaml"
  else if machineType = "win64" then
    "/home/admin/pod_template_windows/config.yaml"
  else if machineType = "Terminal" then
    "/home/admin/pod_template_terminal/config.yaml"
  else
    "/home/admin/pod_template_linux/config.yaml"

/-- Translation of `loadPodTemplateFromLegacyPath` (part_003): a read
failure panics, a YAML parse failure panics, otherwise the pod is returned.
`readFile` stands for `os.ReadFile` (`none` is a read error) and
`parseYaml` for `yaml.Unmarshal` (`none` is a parse error). -/
def loadPodTemplateFromLegacyPath (readFile : String → Option String)
    (parseYaml : String → Option Pod) (machineType : String) : LoadResult :=
  let templateFileName := legacyTemplatePath machineType
  match readFile templateFileName with
  | none => LoadResult.crashed ("failed to read YAML file " ++ templateFileName)
  | some yamlFile =>
    match parseYaml yamlFile with
    | none => LoadResult.crashed "failed to unmarshal YAML"
    | some pod => LoadResult.ok pod

/-- Translation of `LoadPodTemplateFromYaml` (part_003): try the mounted
directory first; on a read failure fall back to the legacy path; a parse
failure of a mounted template panics; a successful load clears the
server-assigned fields. -/
def LoadPodTemplateFromYaml (readFile : String → Option String)
    (parseYaml : String → Option Pod) (machineType : String) : LoadResult :=
  let templateFilePath := podTemplateBaseDir ++ "/" ++ machineType ++ ".yaml"
  match readFile templateFilePath with
  | none => loadPodTemplateFromLegacyPath readFile parseYaml machineType
  | some yamlFile =>
    match parseYaml yamlFile with
    | none => LoadResult.crashed ("failed to unmarshal YAML from " ++ templateFilePath)
    | some pod => LoadResult.ok { pod with resourceVersion := "", uid := "" }

/-- Translation of `httpStatusFromK8s` (aenv_pod_handler.go lines 424-441). -/
def httpStatusFromK8s (code : Int) : Nat :=
  if code = 200 ∨ code = 201 ∨ code = 202 then 200
  else if code = 400 then 400
  else if code = 401 then 401
  else if code = 403 then 403
  else if code = 404 then 404
  else if code = 409 then 409
  else 500

/-- Error shape reaching `handleK8sAPiError`: a typed
`*errors.StatusError` carrying a cluster status code, or any other error
value. -/
inductive K8sError where
  | status (code : Int)
  | untyped (msg : String)

/-- HTTP status chosen by `handleK8sAPiError` (aenv_pod_handler.go lines
414-421): a typed status error goes through `httpStatusFromK8s`, anything
else is an internal server error. -/
def handleK8sApiErrorStatus : K8sError → Nat
  | K8sError.status code => httpStatusFromK8s code
  | K8sError.untyped _ => 500

/-- Lookup of an environment variable's value by name (specification-side
observation used to state the env-merge properties). -/
def findEnvValue : List EnvVar → String → Option String
  | [], _ => none
  | e :: rest, k => if e.name = k then some e.value else findEnvValue rest k

/-- Concrete duration parser used by witnesses: behaves like
`time.ParseDuration` on the two labels `1h` and `2h` and fails on
everything else. -/
def parseDurFx : String → Option Int :=
  fun s => if s = "1h" then some 3600 else if s = "2h" then some 7200 else none

/-- Fixture: a pod created at time 0 with a one-hour TTL label. -/
def podTtl1h : Pod :=
  { name := "p1", labels := [(AENV_TTL, "1h")], creationTimestamp := 0, phase := "Running" }

/-- Fixture: terminated instance A of the cleanup scenario. -/
def podA : Pod :=
  { name := "a", labels := [(AENV_TTL, "1h")], creationTimestamp := 0, phase := "Terminated" }

/-- Fixture: running instance B whose two-hour TTL has not elapsed at time 0. -/
def podB : Pod :=
  { name := "b", labels := [(AENV_TTL, "2h")], creationTimestamp := 0, phase := "Running" }

/-- Fixture: running instance C whose one-hour TTL elapsed two hours ago at
time 0. -/
def podC : Pod :=
  { name := "c", labels := [(AENV_TTL, "1h")], creationTimestamp := -7200, phase := "Running" }

/-- Fixture: template container with 1000 millicores and 1 GiB requests and
limits (the same shape as the repository's own `TestApplyConfig` fixture). -/
def containerFx : Container :=
  { name := "main"
    requests := { cpu := some 1000, memory := some 1073741824000 }
    limits := { cpu := some 1000, memory := some 1073741824000 } }

/-- Fixture: the autoscale deploy configuration of the resource-merge
claim. -/
def cfgAutoscaleFx : List (String × DynVal) :=
  [("cpu", DynVal.str "2"), ("memory", DynVal.str "4G"), ("resource", DynVal.str "autoscale")]

theorem cfgGet_cfgSet_same (m : List (String × DynVal)) (k : String) (v : DynVal) :
    cfgGet (cfgSet m k v) k = some v := by
  induction m with
  | nil => simp [cfgSet, cfgGet]
  | cons kv rest ih =>
    obtain ⟨k', v'⟩ := kv
    by_cases h : k' = k <;> simp [cfgSet, cfgGet, h, ih]

theorem mapGetD_labelSet_same (l : List (String × String)) (k v : String) :
    mapGetD (labelSet l k v) k = v := by
  induction l with
  | nil => simp [labelSet, mapGetD]
  | cons kv rest ih =>
    obtain ⟨k', v'⟩ := kv
    by_cases h : k' = k <;> simp [labelSet, mapGetD, h, ih]

theorem quantityValD_eq_some (q : Option Int) (v : Int) (h : quantityValD q = v) (hv : v ≠ 0) :
    q = some v := by
  cases q with
  | none => simp [quantityValD] at h; omega
  | some x => simp [quantityValD] at h; simp [h]

theorem envFold_preserve (kvs : List (String × DynVal)) (c c' : Container)
    (h : kvs.foldlM
      (fun (acc : Container) kv =>
        match kv.2 with
        | DynVal.str v => some { acc with env := acc.env ++ [⟨kv.1, v⟩] }
        | _ => none) c = some c') :
    c'.requests = c.requests ∧ c'.limits = c.limits ∧ c'.image = c.image := by
  induction kvs generalizing c with
  | nil => simp [List.foldlM] at h; simp [h]
  | cons kv rest ih =>
    rw [List.foldlM_cons] at h
    cases hv : kv.2 <;> rw [hv] at h <;> simp at h
    case str v => exact ih { c with env := c.env ++ [⟨kv.1, v⟩] } h

theorem applyEnvSection_preserve (cfg : List (String × DynVal)) (c c' : Container)
    (h : applyEnvSection cfg c = some c') :
    c'.requests = c.requests ∧ c'.limits = c.limits ∧ c'.image = c.image := by
  unfold applyEnvSection at h
  cases hv : cfgGet cfg "environmentVariables" <;> rw [hv] at h <;> (try dsimp only at h)
  · cases h; exact ⟨rfl, rfl, rfl⟩
  · rename_i val
    cases val <;> (try dsimp only at h) <;> try (cases h; exact ⟨rfl, rfl, rfl⟩)
    split at h
    · exact envFold_preserve _ c c' h
    · cases h; exact ⟨rfl, rfl, rfl⟩

theorem applyArgsSection_preserve (cfg : List (String × DynVal)) (c : Container) :
    (applyArgsSection cfg c).requests = c.requests ∧
    (applyArgsSection cfg c).limits = c.limits ∧
    (applyArgsSection cfg c).image = c.image ∧
    (applyArgsSection cfg c).env = c.env := by
  unfold applyArgsSection
  cases cfgGet cfg "arguments" with
  | none => exact ⟨rfl, rfl, rfl, rfl⟩
  | some val =>
    cases val <;> try exact ⟨rfl, rfl, rfl, rfl⟩
    case strList xs =>
      by_cases hl : xs.length > 0
      · simp [hl]
      · simp [hl]

theorem setCpuMem_preserve (c : Container) (ec em : Int) :
    (setCpuMem c ec em).image = c.image ∧ (setCpuMem c ec em).env = c.env ∧
    (setCpuMem c ec em).args = c.args ∧ (setCpuMem c ec em).name = c.name := by
  unfold setCpuMem
  exact ⟨rfl, rfl, rfl, rfl⟩

theorem applyResourceSection_preserve (cfg : List (String × DynVal)) (c c' : Container)
    (h : applyResourceSection cfg c = some c') :
    c'.image = c.image ∧ c'.env = c.env := by
  unfold applyResourceSection at h
  split at h
  · cases h; exact ⟨rfl, rfl⟩
  · cases h1 : cfgGet cfg "cpu" <;> rw [h1] at h <;> (try dsimp only at h)
    · cases h
    · rename_i vcpu
      cases vcpu <;> (try dsimp only at h) <;> try cases h
      rename_i strCpu
      cases h2 : cfgGet cfg "memory" <;> rw [h2] at h <;> (try dsimp only at h)
      · cases h
      · rename_i vmem
        cases vmem <;> (try dsimp only at h) <;> try cases h
        rename_i strMemory
        cases hq1 : parseQuantity strCpu <;> rw [hq1] at h <;> (try dsimp only at h)
        · cases h; exact ⟨rfl, rfl⟩
        · rename_i ec
          cases hq2 : parseQuantity strMemory <;> rw [hq2] at h <;> (try dsimp only at h)
          · cases h; exact ⟨rfl, rfl⟩
          · rename_i em
            cases h
            exact ⟨(setCpuMem_preserve c ec em).1, (setCpuMem_preserve c ec em).2.1⟩

theorem applyResourceSection_notAutoscale (cfg : List (String × DynVal)) (c : Container)
    (h : isAutoscale cfg = false) : applyResourceSection cfg c = some c := by
  simp [applyResourceSection, h]

theorem applyConfig_image (cfg : List (String × DynVal)) (c c' : Container)
    (h : applyConfig cfg c = some c') : c'.image = c.image := by
  unfold applyConfig at h
  cases he : applyEnvSection cfg c <;> rw [he] at h <;> simp at h
  case some c1 =>
    have h1 := (applyEnvSection_preserve cfg c c1 he).2.2
    have h2 := (applyArgsSection_preserve cfg c1).2.2.1
    have h3 := (applyResourceSection_preserve cfg (applyArgsSection cfg c1) c' h).1
    rw [h3, h2, h1]

theorem applyConfig_notAutoscale_resources (cfg : List (String × DynVal)) (c c' : Container)
    (ha : isAutoscale cfg = false) (h : applyConfig cfg c = some c') :
    c'.requests = c.requests ∧ c'.limits = c.limits := by
  unfold applyConfig at h
  cases he : applyEnvSection cfg c <;> rw [he] at h <;> simp at h
  case some c1 =>
    rw [applyResourceSection_notAutoscale cfg _ ha] at h
    cases h
    have h1 := applyEnvSection_preserve cfg c c1 he
    have h2 := applyArgsSection_preserve cfg c1
    exact ⟨h2.1.trans h1.1, h2.2.1.trans h1.2.1⟩

theorem if_ne_set_eq_some (q : Option Int) (v : Int) (hv : v ≠ 0) :
    (if quantityValD q ≠ v then some v else q) = some v := by
  split
  · rfl
  · next h =>
    push_neg at h
    exact quantityValD_eq_some q v h hv

theorem memorySet_memory (R : ResourceList) (em : Int) (hem : em ≠ 0) :
    (if quantityValD R.memory ≠ em then { R with memory := some em } else R).memory = some em := by
  split
  · rfl
  · next h =>
    push_neg at h
    exact quantityValD_eq_some _ em h hem

theorem memorySet_keeps_cpu (R : ResourceList) (em : Int) :
    (if quantityValD R.memory ≠ em then { R with memory := some em } else R).cpu = R.cpu := by
  split <;> rfl

theorem cpuSet_cpu (R : ResourceList) (ec : Int) (hec : ec ≠ 0) :
    (if quantityValD R.cpu ≠ ec then { R with cpu := some ec } else R).cpu = some ec := by
  split
  · rfl
  · next h =>
    push_neg at h
    exact quantityValD_eq_some _ ec h hec

theorem setCpuMem_values (c : Container) (ec em : Int) (hec : ec ≠ 0) (hem : em ≠ 0) :
    (setCpuMem c ec em).requests.cpu = some ec ∧
    (setCpuMem c ec em).requests.memory = some em ∧
    (setCpuMem c ec em).limits.cpu = some ec ∧
    (setCpuMem c ec em).limits.memory = some em := by
  unfold setCpuMem
  dsimp only
  refine ⟨?_, ?_, ?_, ?_⟩
  · rw [memorySet_keeps_cpu]
    exact cpuSet_cpu c.requests ec hec
  · exact memorySet_memory _ em hem
  · rw [memorySet_keeps_cpu]
    exact cpuSet_cpu c.limits ec hec
  · exact memorySet_memory _ em hem

theorem mergeOneEnv_not_mem (env : List EnvVar) (k v : String)
    (h : k ∉ env.map EnvVar.name) : mergeOneEnv env k v = env ++ [⟨k, v⟩] := by
  induction env with
  | nil => simp [mergeOneEnv]
  | cons e rest ih =>
    simp only [List.map_cons, List.mem_cons, not_or] at h
    rw [mergeOneEnv, if_neg (Ne.symm h.1), ih h.2, List.cons_append]

theorem mergeOneEnv_names (env : List EnvVar) (k v : String) :
    (mergeOneEnv env k v).map EnvVar.name =
      if k ∈ env.map EnvVar.name then env.map EnvVar.name
      else env.map EnvVar.name ++ [k] := by
  induction env with
  | nil => simp [mergeOneEnv]
  | cons e rest ih =>
    by_cases h : e.name = k
    · simp [mergeOneEnv, h]
    · rw [List.map_cons]
      have hk : ¬ k = e.name := fun hh => h hh.symm
      rw [mergeOneEnv, if_neg h, List.map_cons, ih]
      by_cases hm : k ∈ rest.map EnvVar.name
      · rw [if_pos hm, if_pos (by simp [hm])]
      · rw [if_neg hm, if_neg (by simp [hk, hm]), List.cons_append]

theorem mergeOneEnv_findEnvValue (env : List EnvVar) (k v : String) :
    findEnvValue (mergeOneEnv env k v) k = some v := by
  induction env with
  | nil => simp [mergeOneEnv, findEnvValue]
  | cons e rest ih =>
    by_cases h : e.name = k
    · simp [mergeOneEnv, h, findEnvValue]
    · simp [mergeOneEnv, h, findEnvValue, ih]

theorem mergeOneEnv_nodup (env : List EnvVar) (k v : String)
    (h : (env.map EnvVar.name).Nodup) : ((mergeOneEnv env k v).map EnvVar.name).Nodup := by
  rw [mergeOneEnv_names]
  by_cases hm : k ∈ env.map EnvVar.name
  · rw [if_pos hm]; exact h
  · rw [if_neg hm]
    simp [List.nodup_append, h, hm]

theorem mergeEnvVars_nodup (environs : List (String × String)) (env : List EnvVar)
    (h : (env.map EnvVar.name).Nodup) :
    ((mergeEnvVars environs env).map EnvVar.name).Nodup := by
  induction environs generalizing env with
  | nil => exact h
  | cons kv rest ih =>
    rw [mergeEnvVars, List.foldl_cons]
    exact ih (mergeOneEnv env kv.1 kv.2) (mergeOneEnv_nodup env kv.1 kv.2 h)

theorem expiredScanKeeps_false_of_empty (parseDur : String → Option Int) (now : Int) (pod : Pod)
    (h : mapGetD pod.labels AENV_TTL = "") : expiredScanKeeps parseDur now pod = false := by
  unfold expiredScanKeeps
  simp [h]

theorem expiredScanKeeps_false_of_unparsable (parseDur : String → Option Int) (now : Int)
    (pod : Pod) (h : parseDur (mapGetD pod.labels AENV_TTL) = none) :
    expiredScanKeeps parseDur now pod = false := by
  unfold expiredScanKeeps
  by_cases he : mapGetD pod.labels AENV_TTL = "" <;> simp [he, h]

theorem not_mem_ListExpiredPods (parseDur : String → Option Int) (now : Int) (pods : List Pod)
    (pod : Pod) (h : expiredScanKeeps parseDur now pod = false) :
    pod ∉ ListExpiredPods parseDur now pods := by
  intro hm
  rw [ListExpiredPods, List.mem_filter, h] at hm
  exact absurd hm.2 (by simp)

theorem ListExpiredPods_skips (parseDur : String → Option Int) (now : Int)
    (pods₁ pods₂ : List Pod) (bad : Pod) (h : expiredScanKeeps parseDur now bad = false) :
    ListExpiredPods parseDur now (pods₁ ++ bad :: pods₂) =
      ListExpiredPods parseDur now (pods₁ ++ pods₂) := by
  simp [ListExpiredPods, List.filter_append, List.filter_cons, h]

/-- C1: the claim states that `ListExpired` at time `t` includes an
instance with TTL label parsing to `d` and creation time `t0` iff
`t − t0 > d`.  The code violates this: at time 0, the pod `podTtl1h`
(created at 0, TTL `1h` = 3600 s, hence not expired) is nevertheless in the
result of `ListExpiredPods`, because the source appends every pod with a
parseable TTL label — the expiry comparison only guards a log line.  This
contradicts the function's own doc comment (`list all expired pods`) and
its log text (`has expired ..., deleting...`). -/
theorem C1_listExpired_includes_unexpired_pod :
    podTtl1h ∈ ListExpiredPods parseDurFx 0 [podTtl1h] ∧
    parseDurFx (mapGetD podTtl1h.labels AENV_TTL) = some 3600 ∧
    ¬ ((0 : Int) - podTtl1h.creationTimestamp > 3600) := by
  refine ⟨?_, by decide, by decide⟩
  simp [ListExpiredPods, List.filter, podTtl1h, expiredScanKeeps, mapGetD, AENV_TTL, parseDurFx]

/-- C2: the claim states that a cleanup pass over `{A : Terminated,
B : Running and unexpired, C : Running and expired}` attempts deletion only
of `C`.  The code attempts deletion of `B` as well, because the expired
list served by the controller (`ListExpiredPods`) contains every pod with a
parseable TTL label: at time 0 the attempted-deletion trace over the pods
`A, B, C` is `["b", "c"]`, not `["c"]`.  The error-tolerance half of the
claim does hold and is evaluated here too: with every deletion failing, the
pass completes, `deletedCount = 0`, and `Cleanup` returns without an
error. -/
theorem C2_cleanup_attempts_unexpired_pod :
    (cleanupPassTrace (fun _ => Except.error "deletion failed")
        (FilterPodsOf parseDurFx 0 [podA, podB, podC])).2 = ["b", "c"] ∧
    (cleanupPassTrace (fun _ => Except.error "deletion failed")
        (FilterPodsOf parseDurFx 0 [podA, podB, podC])).1 = 0 ∧
    Cleanup (Except.ok (FilterPodsOf parseDurFx 0 [podA, podB, podC]))
        (fun _ => Except.error "deletion failed") = Except.ok 0 := by
  refine ⟨?_, ?_, ?_⟩ <;> rfl

/-- C9: the create-pod merge path is not total over well-formed request
bodies.  With `resource = "autoscale"` but no `"cpu"` entry (or a `"cpu"`
entry but no `"memory"` entry) the `configs["cpu"].(string)` /
`configs["memory"].(string)` type assertions in `applyConfig` fail, and
with a non-string `"ttl"` entry the `DeployConfig["ttl"].(string)`
assertion in `createPod` fails; each failed assertion is a Go panic,
modelled as `none`. -/
theorem C9_merge_path_not_total :
    applyConfig [("resource", DynVal.str "autoscale")] containerFx = none ∧
    applyConfig [("resource", DynVal.str "autoscale"), ("cpu", DynVal.str "2")] containerFx
      = none ∧
    setTtlLabel [("ttl", DynVal.num 5)] [] = none := by
  refine ⟨rfl, rfl, rfl⟩

/-- C6 counterexample: the claim states that a create request naming a
template kind whose blueprint is absent from both the configured directory
and the legacy fallback path gets a request-level typed error and never a
panic.  With a file system containing neither file, `LoadPodTemplateFromYaml`
reaches the legacy loader, whose failed read is an explicit Go
`panic(...)` — modelled as the `crashed` result, not a typed error
return. -/
theorem C6_counterexample_missing_template_panics :
    LoadPodTemplateFromYaml (fun _ => none) (fun _ => none) "customKind" =
      LoadResult.crashed "failed to read YAML file /home/admin/pod_template_linux/config.yaml" := by
  rfl

/-- C6 amended: for every template kind whose blueprint is absent from both
the configured directory and the legacy fallback path, template loading
panics the process (an explicit `panic` in `loadPodTemplateFromLegacyPath`)
instead of returning a typed error; this applies to secondary kinds named
by a single create request just as much as to the primary kind. -/
theorem C6_missing_template_always_panics (readFile : String → Option String)
    (parseYaml : String → Option Pod) (machineType : String)
    (h1 : readFile (podTemplateBaseDir ++ "/" ++ machineType ++ ".yaml") = none)
    (h2 : readFile (legacyTemplatePath machineType) = none) :
    LoadPodTemplateFromYaml readFile parseYaml machineType =
      LoadResult.crashed ("failed to read YAML file " ++ legacyTemplatePath machineType) := by
  simp only [LoadPodTemplateFromYaml, h1, loadPodTemplateFromLegacyPath, h2]

/-- C6 witness: the amended theorem applied to the empty file system and
the secondary kind `secondaryKind`. -/
theorem C6_missing_template_always_panics_witness :
    LoadPodTemplateFromYaml (fun _ => none) (fun _ => none) "secondaryKind" =
      LoadResult.crashed ("failed to read YAML file " ++ legacyTemplatePath "secondaryKind") :=
  C6_missing_template_always_panics (fun _ => none) (fun _ => none) "secondaryKind" rfl rfl

/-- C8 counterexample: the claim states that beyond not-found → 404 and
conflict → 409, every other cluster error yields 500; but a cluster
`403 Forbidden` status is translated to 403, not 500 (the switch also maps
400, 401, 403 and the success codes). -/
theorem C8_counterexample_forbidden_is_403 :
    httpStatusFromK8s 403 = 403 ∧ (403 : Nat) ≠ 500 := by
  decide

/-- C8 amended: controller CRUD error translation is the 1:1 switch of
`httpStatusFromK8s`: cluster codes 200/201/202 → 200, 400 → 400,
401 → 401, 403 → 403, 404 → 404 (not found), 409 → 409 (conflict), every
other cluster code → 500, and an untyped (non-`StatusError`) error → 500. -/
theorem C8_full_status_translation (code : Int) (m : String) :
    (code ∉ ([200, 201, 202, 400, 401, 403, 404, 409] : List Int) →
      handleK8sApiErrorStatus (K8sError.status code) = 500) ∧
    handleK8sApiErrorStatus (K8sError.untyped m) = 500 ∧
    handleK8sApiErrorStatus (K8sError.status 404) = 404 ∧
    handleK8sApiErrorStatus (K8sError.status 409) = 409 ∧
    handleK8sApiErrorStatus (K8sError.status 400) = 400 ∧
    handleK8sApiErrorStatus (K8sError.status 401) = 401 ∧
    handleK8sApiErrorStatus (K8sError.status 403) = 403 ∧
    handleK8sApiErrorStatus (K8sError.status 200) = 200 ∧
    handleK8sApiErrorStatus (K8sError.status 201) = 200 ∧
    handleK8sApiErrorStatus (K8sError.status 202) = 200 := by
  refine ⟨fun h => ?_, rfl, by decide, by decide, by decide, by decide, by decide,
    by decide, by decide, by decide⟩
  simp only [List.mem_cons, List.not_mem_nil, or_false, not_or] at h
  obtain ⟨h200, h201, h202, h400, h401, h403, h404, h409⟩ := h
  simp [handleK8sApiErrorStatus, httpStatusFromK8s, h200, h201, h202, h400, h401, h403,
    h404, h409]

/-- C8 witness: the amended translation applied to the cluster code 418 and
an untyped error. -/
theorem C8_full_status_translation_witness :
    handleK8sApiErrorStatus (K8sError.status 418) = 500 ∧
    handleK8sApiErrorStatus (K8sError.untyped "connection refused") = 500 :=
  ⟨(C8_full_status_translation 418 "connection refused").1 (by decide),
   (C8_full_status_translation 418 "connection refused").2.1⟩

/-- C7: a cached pod whose TTL label does not parse as a duration is never
in the `ListExpiredPods` result, and the failed parse does not abort the
scan — the result over a list containing the unparsable pod equals the
result over the same list without it (the source logs a warning and
continues the loop). -/
theorem C7_unparsable_ttl_skipped (parseDur : String → Option Int) (now : Int)
    (pods₁ pods₂ : List Pod) (bad : Pod)
    (h : parseDur (mapGetD bad.labels AENV_TTL) = none) :
    bad ∉ ListExpiredPods parseDur now (pods₁ ++ bad :: pods₂) ∧
    ListExpiredPods parseDur now (pods₁ ++ bad :: pods₂) =
      ListExpiredPods parseDur now (pods₁ ++ pods₂) := by
  have hf := expiredScanKeeps_false_of_unparsable parseDur now bad h
  exact ⟨not_mem_ListExpiredPods parseDur now _ bad hf,
    ListExpiredPods_skips parseDur now pods₁ pods₂ bad hf⟩

/-- C7 witness: the theorem applied to a pod with the unparsable label
`zzz` sitting next to `podTtl1h` in the cache. -/
theorem C7_unparsable_ttl_skipped_witness :
    ({ name := "bad", labels := [(AENV_TTL, "zzz")] } : Pod) ∉
      ListExpiredPods parseDurFx 0
        [podTtl1h, { name := "bad", labels := [(AENV_TTL, "zzz")] }] ∧
    ListExpiredPods parseDurFx 0
        [podTtl1h, { name := "bad", labels := [(AENV_TTL, "zzz")] }] =
      ListExpiredPods parseDurFx 0 [podTtl1h] := by
  have h := C7_unparsable_ttl_skipped parseDurFx 0 [podTtl1h] []
    { name := "bad", labels := [(AENV_TTL, "zzz")] } (by decide)
  exact ⟨h.1, h.2⟩

/-- C10: the gateway's create path always stores a `ttl` deploy-config
entry (possibly the empty string); the controller then labels the pod with
that string, so an instance created with an empty ttl carries an empty
`AENV_TTL` label; and `ListExpiredPods` never includes a pod whose
`AENV_TTL` label is empty or absent (an absent label also reads as the
empty string), so such an instance is never selected for reclamation. -/
theorem C10_empty_ttl_never_reclaimed (dc : List (String × DynVal))
    (labels : List (String × String)) (parseDur : String → Option Int) (now : Int)
    (pods : List Pod) (pod : Pod) :
    cfgGet (applyTtlConfig dc "") "ttl" = some (DynVal.str "") ∧
    setTtlLabel (applyTtlConfig dc "") labels = some (labelSet labels AENV_TTL "") ∧
    mapGetD (labelSet labels AENV_TTL "") AENV_TTL = "" ∧
    (mapGetD pod.labels AENV_TTL = "" → pod ∉ ListExpiredPods parseDur now pods) := by
  have h1 : cfgGet (applyTtlConfig dc "") "ttl" = some (DynVal.str "") :=
    cfgGet_cfgSet_same dc "ttl" (DynVal.str "")
  refine ⟨h1, ?_, mapGetD_labelSet_same labels AENV_TTL "",
    fun he => not_mem_ListExpiredPods parseDur now pods pod
      (expiredScanKeeps_false_of_empty parseDur now pod he)⟩
  unfold setTtlLabel
  rw [h1]

/-- C10 witness: the theorem applied to a pod carrying an empty `AENV_TTL`
label, alone in the cache. -/
theorem C10_empty_ttl_never_reclaimed_witness :
    cfgGet (applyTtlConfig [] "") "ttl" = some (DynVal.str "") ∧
    ({ name := "p", labels := [(AENV_TTL, "")] } : Pod) ∉
      ListExpiredPods parseDurFx 0 [{ name := "p", labels := [(AENV_TTL, "")] }] := by
  have h := C10_empty_ttl_never_reclaimed [] [] parseDurFx 0
    [{ name := "p", labels := [(AENV_TTL, "")] }] { name := "p", labels := [(AENV_TTL, "")] }
  exact ⟨h.1, h.2.2.2 (by decide)⟩

/-- C3 counterexample: the claim states that with `cpu = "2"`,
`memory = "4G"`, `resource = "autoscale"` the merged memory request equals
4 gibibytes as a binary-SI quantity (4294967296 bytes).  The Kubernetes
quantity `"4G"` is decimal-SI: the merged memory request is 4×10⁹ bytes
(4000000000000 milli-bytes), which differs from 4 GiB (4294967296000
milli-bytes). -/
theorem C3_counterexample_memory_is_decimal :
    (applyConfig cfgAutoscaleFx containerFx).map (fun c => c.requests.memory) =
      some (some 4000000000000) ∧
    (4000000000000 : Int) ≠ 4294967296 * 1000 := by
  exact ⟨rfl, by decide⟩

/-- C3 amended: with `cpu = "2"`, `memory = "4G"`, `resource = "autoscale"`
the merged container's CPU request and limit both equal 2000 millicores and
its memory request and limit both equal 4 gigabytes (the decimal-SI
quantity 4×10⁹ bytes, not 4 gibibytes); and when the `resource` entry is
not the string `"autoscale"`, the template container's resource requests
and limits are left unchanged regardless of the cpu and memory inputs. -/
theorem C3_autoscale_resource_merge :
    (∀ (cfg : List (String × DynVal)) (c c' : Container),
      cfgGet cfg "cpu" = some (DynVal.str "2") →
      cfgGet cfg "memory" = some (DynVal.str "4G") →
      cfgGet cfg "resource" = some (DynVal.str "autoscale") →
      applyConfig cfg c = some c' →
      c'.requests.cpu = some 2000 ∧ c'.limits.cpu = some 2000 ∧
      c'.requests.memory = some 4000000000000 ∧ c'.limits.memory = some 4000000000000) ∧
    (∀ (cfg : List (String × DynVal)) (c c' : Container),
      isAutoscale cfg = false →
      applyConfig cfg c = some c' →
      c'.requests = c.requests ∧ c'.limits = c.limits) := by
  constructor
  · intro cfg c c' hcpu hmem hres h
    unfold applyConfig at h
    cases he : applyEnvSection cfg c <;> rw [he] at h <;> simp at h
    rename_i c1
    have hauto : isAutoscale cfg = true := by simp [isAutoscale, hres]
    have hq1 : parseQuantity "2" = some 2000 := by decide
    have hq2 : parseQuantity "4G" = some 4000000000000 := by decide
    unfold applyResourceSection at h
    rw [if_neg (by simp [hauto])] at h
    rw [hcpu] at h
    dsimp only at h
    rw [hmem] at h
    dsimp only at h
    rw [hq1] at h
    dsimp only at h
    rw [hq2] at h
    dsimp only at h
    cases h
    have hv := setCpuMem_values (applyArgsSection cfg c1) 2000 4000000000000
      (by decide) (by decide)
    exact ⟨hv.1, hv.2.2.1, hv.2.1, hv.2.2.2⟩
  · intro cfg c c' ha h
    exact applyConfig_notAutoscale_resources cfg c c' ha h

/-- C3 witness: the amended theorem applied to `cfgAutoscaleFx` over the
template container `containerFx`, and to a non-autoscale configuration over
the same container. -/
theorem C3_autoscale_resource_merge_witness :
    (({ name := "main",
        requests := { cpu := some 2000, memory := some 4000000000000 },
        limits := { cpu := some 2000, memory := some 4000000000000 } } : Container).requests.cpu
        = some 2000 ∧
      ({ name := "main",
          requests := { cpu := some 2000, memory := some 4000000000000 },
          limits := { cpu := some 2000, memory := some 4000000000000 } } : Container).limits.cpu
        = some 2000 ∧
      ({ name := "main",
          requests := { cpu := some 2000, memory := some 4000000000000 },
          limits := { cpu := some 2000, memory := some 4000000000000 } } : Container).requests.memory
        = some 4000000000000 ∧
      ({ name := "main",
          requests := { cpu := some 2000, memory := some 4000000000000 },
          limits := { cpu := some 2000, memory := some 4000000000000 } } : Container).limits.memory
        = some 4000000000000) ∧
    (containerFx.requests = containerFx.requests ∧ containerFx.limits = containerFx.limits) :=
  ⟨C3_autoscale_resource_merge.1 cfgAutoscaleFx containerFx
      { name := "main",
        requests := { cpu := some 2000, memory := some 4000000000000 },
        limits := { cpu := some 2000, memory := some 4000000000000 } } rfl rfl rfl rfl,
   C3_autoscale_resource_merge.2 [("resource", DynVal.str "manual")] containerFx containerFx
      rfl rfl⟩

/-- C4 counterexample: the claim states that every merge of
definition-provided environment variables into a template container yields
no duplicate names.  On the controller's create path (`applyConfig`), a
definition variable `A = "2"` merged into a template whose env already
holds `A = "1"` is appended unconditionally, leaving two entries named
`A`. -/
theorem C4_counterexample_applyConfig_duplicates :
    (applyConfig [("environmentVariables", DynVal.map [("A", DynVal.str "2")])]
        { name := "e", env := [⟨"A", "1"⟩] }).map Container.env =
      some [⟨"A", "1"⟩, ⟨"A", "2"⟩] ∧
    ¬ (([⟨"A", "1"⟩, ⟨"A", "2"⟩] : List EnvVar).map EnvVar.name).Nodup := by
  exact ⟨rfl, by decide⟩

/-- C4 amended: the duplicate-free override/append merge holds for the
`MergePod` path (part_003), not for `applyConfig`: `mergeOneEnv` appends a
variable whose name is new and overrides the first entry of an existing
name while keeping the name list unchanged, and `mergeEnvVars` preserves
duplicate-freeness of a template env whose names are distinct;
`applyConfig` instead appends definition variables unconditionally and can
produce duplicate names (see the counterexample). -/
theorem C4_mergePod_env_no_duplicates :
    (∀ (env : List EnvVar) (k v : String),
      k ∉ env.map EnvVar.name → mergeOneEnv env k v = env ++ [⟨k, v⟩]) ∧
    (∀ (env : List EnvVar) (k v : String),
      k ∈ env.map EnvVar.name →
        (mergeOneEnv env k v).map EnvVar.name = env.map EnvVar.name ∧
        findEnvValue (mergeOneEnv env k v) k = some v) ∧
    (∀ (environs : List (String × String)) (env : List EnvVar),
      (env.map EnvVar.name).Nodup → ((mergeEnvVars environs env).map EnvVar.name).Nodup) := by
  refine ⟨mergeOneEnv_not_mem, ?_, mergeEnvVars_nodup⟩
  intro env k v hm
  constructor
  · rw [mergeOneEnv_names, if_pos hm]
  · exact mergeOneEnv_findEnvValue env k v

/-- C4 witness: the amended merge properties applied to concrete inputs — a
new name is appended, an existing name is overridden in place, and a merge
of two variables into a two-entry template stays duplicate-free. -/
theorem C4_mergePod_env_no_duplicates_witness :
    mergeOneEnv [⟨"A", "1"⟩] "B" "2" = [⟨"A", "1"⟩] ++ [⟨"B", "2"⟩] ∧
    ((mergeOneEnv [⟨"A", "1"⟩] "A" "2").map EnvVar.name =
        ([⟨"A", "1"⟩] : List EnvVar).map EnvVar.name ∧
      findEnvValue (mergeOneEnv [⟨"A", "1"⟩] "A" "2") "A" = some "2") ∧
    ((mergeEnvVars [("A", "2"), ("B", "9")] [⟨"A", "1"⟩, ⟨"C", "3"⟩]).map EnvVar.name).Nodup :=
  ⟨C4_mergePod_env_no_duplicates.1 [⟨"A", "1"⟩] "B" "2" (by decide),
   C4_mergePod_env_no_duplicates.2.1 [⟨"A", "1"⟩] "A" "2" (by decide),
   C4_mergePod_env_no_duplicates.2.2 [("A", "2"), ("B", "9")] [⟨"A", "1"⟩, ⟨"C", "3"⟩]
     (by decide)⟩

theorem applyDatasource_empty (dc : List (String × DynVal)) :
    applyDatasource dc "" = dc := by
  simp [applyDatasource]

theorem applyDatasource_get_second (dc : List (String × DynVal)) (p s : String)
    (hp : cfgGet dc "imagePrefix" = some (DynVal.str p)) (hs : s ≠ "") :
    cfgGet (applyDatasource dc s) "secondImageName" =
      some (DynVal.str (p ++ ":" ++ s)) := by
  unfold applyDatasource
  rw [if_pos hs, hp]
  exact cfgGet_cfgSet_same dc "secondImageName" (DynVal.str (p ++ ":" ++ s))

theorem mergeOneContainer_image_at_one (aenv : AEnvHubEnv) (image : String)
    (c c' : Container) (t : String)
    (hget : cfgGet aenv.deployConfig "secondImageName" = some (DynVal.str t))
    (h : mergeOneContainer aenv image 1 c = some c') : c'.image = t := by
  unfold mergeOneContainer at h
  rw [hget] at h
  simp only [if_pos rfl, Option.bind_eq_bind, Option.some_bind] at h
  exact applyConfig_image aenv.deployConfig _ c' h

theorem mergeOneContainer_image_no_second (aenv : AEnvHubEnv) (image : String)
    (c c' : Container)
    (hget : cfgGet aenv.deployConfig "secondImageName" = none)
    (h : mergeOneContainer aenv image 1 c = some c') : c'.image = image := by
  unfold mergeOneContainer at h
  rw [hget] at h
  simp only [if_pos rfl, Option.bind_eq_bind, Option.some_bind] at h
  exact applyConfig_image aenv.deployConfig _ c' h


/-- C5: in a create request for a definition with datasource `s` and
`deployConfig.imagePrefix = p` (and no pre-existing `secondImageName`
entry), the gateway stores `p ++ ":" ++ s` as `secondImageName` exactly when
`s` is non-empty, and the controller's merge then sets the second
container's image to that string; when `s` is empty no second image is
configured and the second container keeps the primary image (the first
`image`-type artifact of the definition). -/
theorem C5_second_container_image (pod : Pod) (aenv : AEnvHubEnv) (p s : String)
    (pod' : Pod) (c : Container)
    (hp : cfgGet aenv.deployConfig "imagePrefix" = some (DynVal.str p))
    (hsec : cfgGet aenv.deployConfig "secondImageName" = none)
    (hm : MergePodImage pod { aenv with deployConfig := applyDatasource aenv.deployConfig s }
      = some pod')
    (hc : pod'.containers.get? 1 = some c) :
    (s ≠ "" → c.image = p ++ ":" ++ s) ∧
    (s = "" → c.image = firstImageArtifact aenv.artifacts) := by
  unfold MergePodImage at hm
  dsimp only at hm
  cases hmc : mergeContainersFrom
      { aenv with deployConfig := applyDatasource aenv.deployConfig s }
      (firstImageArtifact aenv.artifacts) 0 pod.containers with
  | none => rw [hmc] at hm; simp at hm
  | some conts =>
    rw [hmc] at hm
    simp at hm
    have hpc : pod'.containers = conts := by rw [← hm]
    rw [hpc] at hc
    cases hcl : pod.containers with
    | nil =>
      rw [hcl] at hmc
      unfold mergeContainersFrom at hmc
      simp at hmc
      subst hmc
      simp at hc
    | cons c0 tail =>
      cases htl : tail with
      | nil =>
        rw [hcl, htl] at hmc
        unfold mergeContainersFrom at hmc
        cases h0 : mergeOneContainer
            { aenv with deployConfig := applyDatasource aenv.deployConfig s }
            (firstImageArtifact aenv.artifacts) 0 c0 with
        | none => rw [h0] at hmc; simp at hmc
        | some c0' =>
          rw [h0] at hmc
          unfold mergeContainersFrom at hmc
          simp at hmc
          subst hmc
          simp at hc
      | cons c1 rest =>
        rw [hcl, htl] at hmc
        unfold mergeContainersFrom at hmc
        cases h0 : mergeOneContainer
            { aenv with deployConfig := applyDatasource aenv.deployConfig s }
            (firstImageArtifact aenv.artifacts) 0 c0 with
        | none => rw [h0] at hmc; simp at hmc
        | some c0' =>
          rw [h0] at hmc
          simp only [Option.bind_eq_bind, Option.some_bind] at hmc
          unfold mergeContainersFrom at hmc
          cases h1 : mergeOneContainer
              { aenv with deployConfig := applyDatasource aenv.deployConfig s }
              (firstImageArtifact aenv.artifacts) 1 c1 with
          | none =>
            rw [show (0 + 1 : Nat) = 1 from rfl] at hmc
            rw [h1] at hmc; simp at hmc
          | some c1' =>
            rw [show (0 + 1 : Nat) = 1 from rfl] at hmc
            rw [h1] at hmc
            simp only [Option.bind_eq_bind, Option.some_bind] at hmc
            cases hr : mergeContainersFrom
                { aenv with deployConfig := applyDatasource aenv.deployConfig s }
                (firstImageArtifact aenv.artifacts) 2 rest with
            | none =>
              rw [show (1 + 1 : Nat) = 2 from rfl] at hmc
              rw [hr] at hmc; simp at hmc
            | some rest' =>
              rw [show (1 + 1 : Nat) = 2 from rfl] at hmc
              rw [hr] at hmc
              simp at hmc
              subst hmc
              simp at hc
              subst hc
              constructor
              · intro hs
                exact mergeOneContainer_image_at_one _ _ c1 c1' (p ++ ":" ++ s)
                  (applyDatasource_get_second aenv.deployConfig p s hp hs) h1
              · intro hs
                refine mergeOneContainer_image_no_second _ _ c1 c1' ?_ h1
                show cfgGet (applyDatasource aenv.deployConfig s) "secondImageName" = none
                rw [hs, applyDatasource_empty]
                exact hsec

/-- C5 witness: the theorem applied to a two-container template and a
definition with image prefix `pre` and datasource `ds` (the merged second
container's image is `pre:ds`). -/
theorem C5_second_container_image_witness :
    ("ds" ≠ "" → ({ name := "c1", image := "pre:ds" } : Container).image = "pre" ++ ":" ++ "ds") ∧
    ("ds" = "" → ({ name := "c1", image := "pre:ds" } : Container).image =
      firstImageArtifact [⟨"image", "img:1"⟩]) :=
  C5_second_container_image
    { name := "tpl", containers := [{ name := "c0" }, { name := "c1" }] }
    { name := "env", artifacts := [⟨"image", "img:1"⟩],
      deployConfig := [("imagePrefix", DynVal.str "pre")] }
    "pre" "ds"
    { name := "tpl",
      containers := [{ name := "c0", image := "img:1" }, { name := "c1", image := "pre:ds" }] }
    { name := "c1", image := "pre:ds" }
    rfl rfl rfl rfl
